import Mathlib

/-!
Verification of the asteroids-py game core (`asteroids.py`, `shapes.py`,
`config.py`) against its natural-language specification.

Modelling conventions:
* Python floats are modelled as exact rationals (`ℚ`); every arithmetic
  operation the claims touch (addition, subtraction, halving, comparison)
  is exact on the values involved.
* Mutating methods become pure functions from the old state to the new
  state; an object's attributes become fields of a structure.
* Randomized quantities (`random.randint`, `random.uniform`) are
  parameters of the model, constrained by the contract of the random
  primitive where a claim needs it.
-/

namespace Asteroids

/-! ### Constants from config.py -/

def SCREEN_WIDTH : ℚ := 800
def SCREEN_HEIGHT : ℚ := 600

def SHIP_ACCELERATION_RATE : ℚ := 1/2
def SHIP_ROTATION_RATE : ℚ := 10
def SHIP_COLOR : ℕ × ℕ × ℕ := (140, 140, 255)

def ASTEROID_MIN_POINTS : ℕ := 6
def ASTEROID_MAX_POINTS : ℕ := 12
def ASTEROID_MIN_RADIUS : ℚ := 10
def ASTEROID_MAX_RADIUS : ℚ := 40

def UPGRADE_REQUIREMENT : ℕ := 5
def MAX_UPGRADE_LEVEL : ℕ := 7

def RESPAWN_DELAY : ℤ := 50
def VULNERABILITY_DELAY : ℤ := 50

def BULLET_RADIUS : ℚ := 3
def BULLET_SPEED : ℚ := 30

/-- Modelled from the spec: `asteroids.py` line 200 reads the constant
`UPGRADE_REQ`, which no file under the sources defines (`config.py` defines
`UPGRADE_REQUIREMENT = 5`, commented "Number of asteroids to destroy to earn
upgrade"). The spec's kill-count threshold for earning an upgrade is taken
to be that value, 5. -/
def UPGRADE_REQ : ℕ := 5

/-- Modelled from the spec: `shapes.py` line 259 and `asteroids.py` line 43
read the constant `SHIP_INITIAL_ROTATION`, which no file under the sources
defines (`config.py` defines `SHIP_INITIAL_DIRECTION = -90.0`). The spec's
"initial heading" is taken to be that value, -90. -/
def SHIP_INITIAL_ROTATION : ℚ := -90

/-! ### Shape.rotate (shapes.py lines 63-68)

`rotate` adds the argument to `self.rotation` and then applies a single
correction: add 360 if the sum is negative, else subtract 360 if the sum
is at least 360. The method mutates `self.rotation`; here it maps the old
rotation to the new one. -/

def Shape.rotate (rotation degrees : ℚ) : ℚ :=
  let rotation := rotation + degrees
  if rotation < 0 then rotation + 360
  else if 360 ≤ rotation then rotation - 360
  else rotation

/-! ### Shape.boundary_check (shapes.py lines 53-61)

Sequential: the x coordinate is corrected first, then the y coordinate of
the (possibly already corrected) position. Note the asymmetry in the
source: `x < 0` re-enters at `screen_width - 1`, but `y < 0` re-enters at
`screen_height` (no `- 1`). -/

def Shape.boundary_check (position : ℚ × ℚ) (screen_width screen_height : ℚ) :
    ℚ × ℚ :=
  let position :=
    if screen_width ≤ position.1 then ((0 : ℚ), position.2)
    else if position.1 < 0 then (screen_width - 1, position.2)
    else position
  if screen_height ≤ position.2 then (position.1, (0 : ℚ))
  else if position.2 < 0 then (position.1, screen_height)
  else position

/-- C3 counterexample: a shape with rotation 0 rotated by 720 degrees ends
with rotation 360, which is not in [0, 360): a single wrap correction does
not suffice for arbitrary real degree arguments. -/
theorem rotate_720_escapes :
    (0:ℚ) ≤ 0 ∧ (0:ℚ) < 360 ∧ Shape.rotate 0 720 = 360 ∧
      ¬ Shape.rotate 0 720 < 360 := by
  refine ⟨le_refl 0, by norm_num, ?_, ?_⟩ <;> norm_num [Shape.rotate]

/-- C3 (amended): for every starting rotation in [0, 360) and every degree
increment d with -360 ≤ d ≤ 360 (which covers every call site in the game,
where |d| ≤ 180), the rotation after `rotate(d)` again lies in [0, 360).
The single wrap correction fails once |d| exceeds 360. -/
theorem rotate_mem_Ico (r d : ℚ) (h0 : 0 ≤ r) (h1 : r < 360)
    (hd0 : -360 ≤ d) (hd1 : d ≤ 360) :
    0 ≤ Shape.rotate r d ∧ Shape.rotate r d < 360 := by
  unfold Shape.rotate
  dsimp only
  split_ifs with hneg hbig
  · constructor <;> linarith
  · constructor <;> linarith
  · constructor <;> linarith

/-- Witness for `rotate_mem_Ico` at rotation 350, increment 20. -/
theorem rotate_mem_Ico_witness :
    ((0:ℚ) ≤ 350 ∧ (350:ℚ) < 360 ∧ (-360:ℚ) ≤ 20 ∧ (20:ℚ) ≤ 360) ∧
      (0 ≤ Shape.rotate 350 20 ∧ Shape.rotate 350 20 < 360) :=
  ⟨by norm_num, rotate_mem_Ico 350 20 (by norm_num) (by norm_num)
    (by norm_num) (by norm_num)⟩

/-- C7: evaluating `boundary_check` at position (0, -1) on the 800 x 600
screen. The y coordinate, having crossed the top edge, re-enters at
y = 600 = screen_height, which is not inside [0, 600): the source's
`y < 0` branch writes `screen_height` where the parallel `x < 0` branch
writes `screen_width - 1`. -/
theorem boundary_check_y_bug :
    Shape.boundary_check (0, -1) 800 600 = (0, 600) ∧
      ¬ (600 : ℚ) < 600 := by
  refine ⟨?_, by norm_num⟩
  norm_num [Shape.boundary_check]

/-! ### Ship (shapes.py lines 195-262)

The mutable attributes set by `Ship.__init__` and touched by `upgrade`,
`take_damage` and the game logic. The polygon outline data
(`self.shape`, the cached world points) is geometric and constant per
rotation/position; it is not needed by the ship-state claims. -/

structure Ship where
  position : ℚ × ℚ
  rotation : ℚ
  color : ℕ × ℕ × ℕ
  dx : ℚ
  dy : ℚ
  active : Bool
  starting_point : ℚ × ℚ
  asteroids_destroyed : ℕ
  upgrade_level : ℕ
  shielded : Bool
  invincibility_timer : ℤ
  respawn_timer : ℤ
  deriving DecidableEq, Repr

/-- The ship as built by `Ship.__init__` at the screen centre
(`asteroids.py` lines 42-43). -/
def Ship.init : Ship where
  position := (SCREEN_WIDTH / 2, SCREEN_HEIGHT / 2)
  rotation := SHIP_INITIAL_ROTATION
  color := SHIP_COLOR
  dx := 0
  dy := 0
  active := true
  starting_point := (SCREEN_WIDTH / 2, SCREEN_HEIGHT / 2)
  asteroids_destroyed := 0
  upgrade_level := 0
  shielded := false
  invincibility_timer := 0
  respawn_timer := 0

/-- Method `Ship.upgrade` (shapes.py lines 241-245), as written. Line 244 of the
source reads `self.upgrade_level == MAX_UPGRADE_LEVEL`: in Python that is
a comparison expression evaluated and discarded, not an assignment, so the
level is never clamped; only the shielded flag is set. -/
def Ship.upgrade (s : Ship) : Ship :=
  let s := { s with upgrade_level := s.upgrade_level + 1 }
  if MAX_UPGRADE_LEVEL ≤ s.upgrade_level then { s with shielded := true }
  else s

/-- Method `Ship.take_damage` (shapes.py lines 247-262). -/
def Ship.take_damage (s : Ship) : Ship :=
  if 0 < s.invincibility_timer then s
  else if s.shielded then
    { s with shielded := false, color := SHIP_COLOR,
             invincibility_timer := VULNERABILITY_DELAY }
  else
    { s with active := false, asteroids_destroyed := 0, upgrade_level := 0,
             position := s.starting_point, rotation := SHIP_INITIAL_ROTATION,
             dx := 0, dy := 0, respawn_timer := RESPAWN_DELAY }

/-- C2: after eight calls to `upgrade()` on a fresh ship the upgrade level
is 8, strictly above MAX_UPGRADE_LEVEL = 7: the level is not kept within
0..MAX_UPGRADE_LEVEL because the clamp on line 244 is a no-op comparison
(`==` where `=` was intended). -/
theorem upgrade_exceeds_max :
    (Ship.upgrade^[8] Ship.init).upgrade_level = 8 ∧
      MAX_UPGRADE_LEVEL < (Ship.upgrade^[8] Ship.init).upgrade_level := by
  constructor <;> decide

/-- C6: taking damage while the invincibility timer is positive changes
nothing: the ship state (position, rotation, velocity, counters, shield,
timers, active flag) is returned untouched. -/
theorem take_damage_invincible_frame (s : Ship)
    (h : 0 < s.invincibility_timer) : s.take_damage = s := by
  simp [Ship.take_damage, if_pos h]

/-- Witness for `take_damage_invincible_frame`: a ship one tick into its
invincibility window. -/
theorem take_damage_invincible_frame_witness :
    0 < ({ Ship.init with invincibility_timer := 1 } : Ship).invincibility_timer ∧
      ({ Ship.init with invincibility_timer := 1 } : Ship).take_damage =
        { Ship.init with invincibility_timer := 1 } :=
  ⟨by decide, take_damage_invincible_frame _ (by decide)⟩

/-! ### Bullet spawning on a fire key-press (asteroids.py lines 78-106)

When a fire key is newly pressed and the ship is active, the game appends
bullets to `self.bullets` in source order. Each spawned bullet is
represented by the index into `ship.get_points()` it spawns from together
with its rotation (the ship's rotation plus the shot's angular offset).
Note the first condition in the source is `upgrade_level != 1`: at level 1
no forward shot is appended. -/

def fired_bullets (fire_pressed ship_active : Bool) (upgrade_level : ℕ)
    (rotation : ℚ) : List (ℕ × ℚ) :=
  if fire_pressed && ship_active then
    (if upgrade_level ≠ 1 then [(0, rotation)] else []) ++
    (if 0 < upgrade_level then [(3, rotation), (9, rotation)] else []) ++
    (if 2 < upgrade_level then [(3, rotation + 45), (9, rotation - 45)] else []) ++
    (if 3 < upgrade_level then [(3, rotation + 90), (9, rotation - 90)] else []) ++
    (if 4 < upgrade_level then [(4, rotation + 135), (8, rotation - 135)] else []) ++
    (if 5 < upgrade_level then [(6, rotation + 180)] else [])
  else []

/-- The fan-out table as the amended claim states it, level by level: one
forward shot at every level except level 1, two side shots from level 1
up, two shots at ±45° above level 2, two at ±90° above level 3, two at
±135° above level 4, and one at 180° above level 5. -/
def fan_out_table (upgrade_level : ℕ) (r : ℚ) : List (ℕ × ℚ) :=
  match upgrade_level with
  | 0 => [(0, r)]
  | 1 => [(3, r), (9, r)]
  | 2 => [(0, r), (3, r), (9, r)]
  | 3 => [(0, r), (3, r), (9, r), (3, r + 45), (9, r - 45)]
  | 4 => [(0, r), (3, r), (9, r), (3, r + 45), (9, r - 45),
          (3, r + 90), (9, r - 90)]
  | 5 => [(0, r), (3, r), (9, r), (3, r + 45), (9, r - 45),
          (3, r + 90), (9, r - 90), (4, r + 135), (8, r - 135)]
  | _ + 6 => [(0, r), (3, r), (9, r), (3, r + 45), (9, r - 45),
              (3, r + 90), (9, r - 90), (4, r + 135), (8, r - 135),
              (6, r + 180)]

/-- C1 counterexample: firing at upgrade level 1 spawns no forward shot
(the bullet from vertex 0 at offset 0 is absent) and only 2 bullets, where
the claim's table demands a forward shot at every level and hence 3
bullets at level 1. -/
theorem fired_bullets_level1_no_forward :
    ((0, (0:ℚ)) ∉ fired_bullets true true 1 0) ∧
      (fired_bullets true true 1 0).length = 2 ∧ (2:ℕ) ≠ 1 + 2 := by
  refine ⟨?_, by decide, by decide⟩
  decide

/-- C1 (amended): a fire key-press while the ship is active spawns, for
every upgrade level and ship rotation, exactly the bullets of the fan-out
table with the forward shot omitted at level 1: in particular level 3
spawns exactly 5 bullets (forward, two side, and ±45°). -/
theorem fired_bullets_eq_fan_out (L : ℕ) (r : ℚ) :
    fired_bullets true true L r = fan_out_table L r := by
  match L with
  | 0 => rfl
  | 1 => rfl
  | 2 => rfl
  | 3 => rfl
  | 4 => rfl
  | 5 => rfl
  | n + 6 =>
    show (if n + 6 ≠ 1 then _ else _) ++ _ ++ _ ++ _ ++ _ ++ _ = _
    rw [if_pos (by omega), if_pos (by omega), if_pos (by omega),
        if_pos (by omega), if_pos (by omega), if_pos (by omega)]
    rfl

/-! ### Asteroids, upgrades and the game state (asteroids.py)

An `Asteroid` keeps the fields the game logic reads and writes:
`average_radius`, `position` and the `active` flag. `Asteroid.__init__`
additionally randomizes the outline, rotation, rotation rate, color and
velocity; those attributes never feed back into the destruction/splitting
logic the claims are about, so a freshly spawned asteroid is represented
by its average radius and spawn point (the random attributes are
parameters of the outline model further below). -/

structure Asteroid where
  average_radius : ℚ
  position : ℚ × ℚ
  active : Bool
  deriving DecidableEq, Repr, Inhabited

/-- A new asteroid as spawned by `shapes.Asteroid(average_radius,
spawn_point)`: active, carrying the given average radius and position. -/
def Asteroid.spawn (average_radius : ℚ) (spawn_point : ℚ × ℚ) : Asteroid where
  average_radius := average_radius
  position := spawn_point
  active := true

structure Upgrade where
  position : ℚ × ℚ
  deriving DecidableEq, Repr

/-- The slice of `AsteroidsGame` state that `destroy_asteroid` reads and
writes. `asteroid_count` is the game's live-asteroid counter (`int`, may
go negative in principle, hence `ℤ`). -/
structure Game where
  ship : Ship
  upgrades : List Upgrade
  asteroids : List Asteroid
  asteroid_count : ℤ
  asteroid_respawn_timer : ℤ
  deriving DecidableEq, Repr

/-- Method `AsteroidsGame.destroy_asteroid` (asteroids.py lines 197-211) applied
to the asteroid at index `i` of `self.asteroids` (the Python method
receives the object; deactivating it mutates the list entry in place,
modelled by `List.set`). In order: deactivate the asteroid, increment the
ship's kill counter, spawn an upgrade at the asteroid's position when the
counter is a multiple of UPGRADE_REQ, halve the radius, decrement the
live count, and either spawn two half-radius children (count net +1) or,
when the count has reached zero, arm the wave respawn timer. -/
def Game.destroy_asteroid (g : Game) (i : ℕ) : Game :=
  let a := g.asteroids.getD i default
  let asteroids := g.asteroids.set i { a with active := false }
  let ship := { g.ship with
    asteroids_destroyed := g.ship.asteroids_destroyed + 1 }
  let upgrades :=
    if ship.asteroids_destroyed % UPGRADE_REQ = 0 then
      g.upgrades ++ [⟨a.position⟩]
    else g.upgrades
  let half_radius := a.average_radius / 2
  let asteroid_count := g.asteroid_count - 1
  if ASTEROID_MIN_RADIUS ≤ half_radius then
    { g with
      ship := ship
      upgrades := upgrades
      asteroids := asteroids ++
        [Asteroid.spawn half_radius a.position,
         Asteroid.spawn half_radius a.position]
      asteroid_count := asteroid_count + 2 }
  else if asteroid_count ≤ 0 then
    { g with
      ship := ship
      upgrades := upgrades
      asteroids := asteroids
      asteroid_count := asteroid_count
      asteroid_respawn_timer := RESPAWN_DELAY }
  else
    { g with
      ship := ship
      upgrades := upgrades
      asteroids := asteroids
      asteroid_count := asteroid_count }

/-- C4: destroying the asteroid at index `i`, of average radius R: when
R/2 meets or exceeds the minimum radius, exactly two new active asteroids
of average radius R/2 at the destroyed asteroid's position are appended
and the live count rises by one net; when R/2 is below the minimum, no
children appear and the live count falls by one. -/
theorem destroy_asteroid_split (g : Game) (i : ℕ)
    (h : i < g.asteroids.length) :
    (ASTEROID_MIN_RADIUS ≤ (g.asteroids.getD i default).average_radius / 2 →
      (g.destroy_asteroid i).asteroids =
        g.asteroids.set i
            { g.asteroids.getD i default with active := false } ++
          [Asteroid.spawn ((g.asteroids.getD i default).average_radius / 2)
              (g.asteroids.getD i default).position,
           Asteroid.spawn ((g.asteroids.getD i default).average_radius / 2)
              (g.asteroids.getD i default).position] ∧
      (g.destroy_asteroid i).asteroid_count = g.asteroid_count + 1) ∧
    ((g.asteroids.getD i default).average_radius / 2 < ASTEROID_MIN_RADIUS →
      (g.destroy_asteroid i).asteroids =
        g.asteroids.set i
          { g.asteroids.getD i default with active := false } ∧
      (g.destroy_asteroid i).asteroid_count = g.asteroid_count - 1) := by
  constructor
  · intro hbig
    unfold Game.destroy_asteroid
    dsimp only
    rw [if_pos hbig]
    refine ⟨rfl, ?_⟩
    show g.asteroid_count - 1 + 2 = g.asteroid_count + 1
    ring
  · intro hsmall
    unfold Game.destroy_asteroid
    dsimp only
    rw [if_neg (not_le.mpr hsmall)]
    split_ifs <;> exact ⟨rfl, rfl⟩

/-- A concrete one-asteroid game used to witness the destruction
theorems: one active asteroid of maximum radius 40 at (100, 100), counter
and ship fresh. -/
def Game.sample : Game where
  ship := Ship.init
  upgrades := []
  asteroids := [Asteroid.spawn ASTEROID_MAX_RADIUS (100, 100)]
  asteroid_count := 1
  asteroid_respawn_timer := 0

/-- Witness for `destroy_asteroid_split` on `Game.sample` (radius 40, so
half 20 ≥ 10 and the split branch fires). -/
theorem destroy_asteroid_split_witness :
    0 < Game.sample.asteroids.length ∧
      ((ASTEROID_MIN_RADIUS ≤
          (Game.sample.asteroids.getD 0 default).average_radius / 2 →
        (Game.sample.destroy_asteroid 0).asteroids =
          Game.sample.asteroids.set 0
              { Game.sample.asteroids.getD 0 default with active := false } ++
            [Asteroid.spawn
                ((Game.sample.asteroids.getD 0 default).average_radius / 2)
                (Game.sample.asteroids.getD 0 default).position,
             Asteroid.spawn
                ((Game.sample.asteroids.getD 0 default).average_radius / 2)
                (Game.sample.asteroids.getD 0 default).position] ∧
        (Game.sample.destroy_asteroid 0).asteroid_count =
          Game.sample.asteroid_count + 1) ∧
      ((Game.sample.asteroids.getD 0 default).average_radius / 2 <
          ASTEROID_MIN_RADIUS →
        (Game.sample.destroy_asteroid 0).asteroids =
          Game.sample.asteroids.set 0
            { Game.sample.asteroids.getD 0 default with active := false } ∧
        (Game.sample.destroy_asteroid 0).asteroid_count =
          Game.sample.asteroid_count - 1)) :=
  ⟨by decide, destroy_asteroid_split Game.sample 0 (by decide)⟩

/-- A game state in which the ship has destroyed 4 asteroids, one short
of the upgrade threshold, with one active asteroid left. -/
def Game.sample4 : Game :=
  { Game.sample with ship := { Ship.init with asteroids_destroyed := 4 } }

/-- C5 counterexample: destroying the fifth asteroid does spawn an
upgrade at its position, but the kill counter afterwards reads 5, not 0:
`destroy_asteroid` tests `asteroids_destroyed % UPGRADE_REQ == 0` and
never resets the counter. -/
theorem destroy_asteroid_counter_not_reset :
    (Game.sample4.destroy_asteroid 0).upgrades = [⟨(100, 100)⟩] ∧
      (Game.sample4.destroy_asteroid 0).ship.asteroids_destroyed = 5 ∧
      (5 : ℕ) ≠ 0 := by
  unfold Game.destroy_asteroid Game.sample4 Game.sample
  norm_num [Asteroid.spawn, Ship.init, ASTEROID_MIN_RADIUS,
    ASTEROID_MAX_RADIUS, UPGRADE_REQ]

/-- C5 (amended): destroying an asteroid always increments the ship's
kill counter (which is never reset by destruction); exactly when the
incremented counter is a multiple of UPGRADE_REQ, one Upgrade is appended
at the destroyed asteroid's position, and otherwise the upgrade list is
unchanged. The modulo test fires at the same kills as the claim's
reset-to-zero counter would. -/
theorem destroy_asteroid_upgrade_spawn (g : Game) (i : ℕ)
    (h : i < g.asteroids.length) :
    (g.destroy_asteroid i).ship.asteroids_destroyed =
        g.ship.asteroids_destroyed + 1 ∧
      ((g.ship.asteroids_destroyed + 1) % UPGRADE_REQ = 0 →
        (g.destroy_asteroid i).upgrades =
          g.upgrades ++ [⟨(g.asteroids.getD i default).position⟩]) ∧
      ((g.ship.asteroids_destroyed + 1) % UPGRADE_REQ ≠ 0 →
        (g.destroy_asteroid i).upgrades = g.upgrades) := by
  unfold Game.destroy_asteroid
  dsimp only
  split_ifs with hbig hmod hcnt hmod hmod <;>
    refine ⟨rfl, fun hm => ?_, fun hm => ?_⟩ <;>
    simp_all

/-- Witness for `destroy_asteroid_upgrade_spawn` on the four-kill game
`Game.sample4`. -/
theorem destroy_asteroid_upgrade_spawn_witness :
    0 < Game.sample4.asteroids.length ∧
      ((Game.sample4.destroy_asteroid 0).ship.asteroids_destroyed =
          Game.sample4.ship.asteroids_destroyed + 1 ∧
        ((Game.sample4.ship.asteroids_destroyed + 1) % UPGRADE_REQ = 0 →
          (Game.sample4.destroy_asteroid 0).upgrades =
            Game.sample4.upgrades ++
              [⟨(Game.sample4.asteroids.getD 0 default).position⟩]) ∧
        ((Game.sample4.ship.asteroids_destroyed + 1) % UPGRADE_REQ ≠ 0 →
          (Game.sample4.destroy_asteroid 0).upgrades =
            Game.sample4.upgrades)) :=
  ⟨by decide, destroy_asteroid_upgrade_spawn Game.sample4 0 (by decide)⟩

/-! ### The bullet-advance phase (asteroids.py lines 107-111)

```
for b in self.bullets:
    b.game_logic(keys, new_keys)
    if (b.position.x > self.width or b.position.x < 0 or
        b.position.y > self.height or b.position.y < 0):
        self.bullets.remove(b)
```

CPython list iteration works by index: after yielding element `k` the
iterator moves to index `k + 1` of the (possibly mutated) list.
`list.remove` deletes the element in place, shifting every later element
down by one, so the element that followed a removed bullet is silently
skipped: it is neither advanced nor bounds-checked on this tick. The loop
is modelled with an explicit iterator index. -/

structure Bullet where
  position : ℚ × ℚ
  dx : ℚ
  dy : ℚ
  deriving DecidableEq, Repr

/-- Method `Bullet.game_logic` (shapes.py lines 352-354): position += velocity. -/
def Bullet.game_logic (b : Bullet) : Bullet :=
  { b with position := (b.position.1 + b.dx, b.position.2 + b.dy) }

/-- The off-screen test of asteroids.py lines 109-110 (strict
comparisons, in source order). -/
def Bullet.off_screen (b : Bullet) (width height : ℚ) : Bool :=
  decide (width < b.position.1) || decide (b.position.1 < 0) ||
    decide (height < b.position.2) || decide (b.position.2 < 0)

/-- One pass of the bullet loop starting with the iterator at index `k`.
Advancing past a removal lands on index `k + 1` of the shrunken list,
which holds the element after the one that followed the removed bullet —
the CPython skip. -/
def bullet_phase_from (width height : ℚ) : ℕ → List Bullet → List Bullet
  | k, l =>
    if h : k < l.length then
      let b := (l.get ⟨k, h⟩).game_logic
      let l := l.set k b
      if b.off_screen width height then
        bullet_phase_from width height (k + 1) (l.eraseIdx k)
      else
        bullet_phase_from width height (k + 1) l
    else l
  termination_by k l => l.length - k
  decreasing_by
    · simp only [List.length_eraseIdx, List.length_set, h, if_pos]
      omega
    · simp only [List.length_set]
      omega

/-- The whole bullet-advance phase of one tick. -/
def bullet_phase (width height : ℚ) (bullets : List Bullet) : List Bullet :=
  bullet_phase_from width height 0 bullets

/-- C8: the bullet list [(795,300) moving (30,0), (810,300) moving
(30,0)] on the 800 x 600 screen — the second bullet newly spawned from a
ship vertex hanging past the right edge. The first bullet advances to
x = 825 and is removed; the in-place removal skips the second bullet,
which survives the phase unmoved at x = 810 > 800: an off-screen bullet
remains in the collection at the end of the tick's bullet-advance phase. -/
theorem bullet_phase_leaves_off_screen_bullet :
    bullet_phase 800 600
        [⟨(795, 300), 30, 0⟩, ⟨(810, 300), 30, 0⟩] =
      [⟨(810, 300), 30, 0⟩] ∧
    Bullet.off_screen ⟨(810, 300), 30, 0⟩ 800 600 = true := by
  constructor
  · rw [bullet_phase, bullet_phase_from]
    norm_num [Bullet.game_logic, Bullet.off_screen, List.eraseIdx]
    rw [bullet_phase_from]
    norm_num
  · norm_num [Bullet.off_screen]

/-! ### Polygon.contains (shapes.py lines 156-166)

The crossing-number test over the world-space vertex list:

```
for i in range(len(points)):
    j = (i + 1) % len(points)
    if (((points[i].x < point.x and point.x <= points[j].x) or
         (points[j].x < point.x and point.x <= points[i].x)) and
        (point.y > points[i].y + (points[j].y - points[i].y) /
         (points[j].x - points[i].x) * (point.x - points[i].x))):
        crossing_number += 1
return crossing_number % 2 == 1
```

Python's `and` short-circuits: the division on the right of the outer
`and` is evaluated only when the x-interval guard on the left is true. -/

/-- The x-interval guard of edge (i, j): the left conjunct of the
crossing condition, evaluated first. -/
def edge_guard (pi pj p : ℚ × ℚ) : Bool :=
  (decide (pi.1 < p.1) && decide (p.1 ≤ pj.1)) ||
    (decide (pj.1 < p.1) && decide (p.1 ≤ pi.1))

/-- The full crossing condition for edge (i, j). (In Lean `x / 0 = 0`;
the guard is true whenever the division is reached, and then the
denominator is nonzero, so the value agrees with Python.) -/
def edge_crossed (pi pj p : ℚ × ℚ) : Bool :=
  edge_guard pi pj p &&
    decide (pi.2 + (pj.2 - pi.2) / (pj.1 - pi.1) * (p.1 - pi.1) < p.2)

/-- Method `Polygon.contains`: the crossing number over all edges, wrapping
last-to-first, is odd. -/
def Polygon.contains (points : List (ℚ × ℚ)) (p : ℚ × ℚ) : Bool :=
  ((List.range points.length).countP fun i =>
    edge_crossed (points.getD i 0) (points.getD ((i + 1) % points.length) 0)
      p) % 2 == 1

/-- True iff running the body of `Polygon.contains` under Python's
left-to-right short-circuit evaluation would evaluate the slope division
`(points[j].y - points[i].y) / (points[j].x - points[i].x)` with a zero
denominator at some edge, i.e. would raise ZeroDivisionError: the guard
must be true while consecutive x-coordinates coincide. -/
def contains_hits_zero_div (points : List (ℚ × ℚ)) (p : ℚ × ℚ) : Bool :=
  (List.range points.length).any fun i =>
    edge_guard (points.getD i 0) (points.getD ((i + 1) % points.length) 0)
        p &&
      ((points.getD ((i + 1) % points.length) 0).1 - (points.getD i 0).1
        == 0)

/-- Shared kernel of the C9 results: the x-interval guard forces the two
x-coordinates of the edge apart, so the division can never be reached
with a zero denominator. -/
theorem contains_hits_zero_div_eq_false (points : List (ℚ × ℚ))
    (p : ℚ × ℚ) : contains_hits_zero_div points p = false := by
  rw [contains_hits_zero_div, List.any_eq_false]
  intro i _
  set a := points.getD i 0
  set b := points.getD ((i + 1) % points.length) 0
  intro hand
  rw [Bool.and_eq_true] at hand
  obtain ⟨hguard, hzero⟩ := hand
  have hab : b.1 = a.1 := by
    have := of_decide_eq_true hzero
    linarith [sub_eq_zero.mp this]
  rw [edge_guard, Bool.or_eq_true] at hguard
  rcases hguard with hg | hg <;> rw [Bool.and_eq_true] at hg <;>
    obtain ⟨h1, h2⟩ := hg <;>
    rw [decide_eq_true_iff] at h1 h2 <;> linarith

/-- C9 counterexample (the claim's negation): there is no polygon — with
or without two consecutive vertices of equal x — and no query point at
which `Polygon.contains` evaluates its division with a zero denominator:
the guard conjunct short-circuits the division away on exactly those
edges. -/
theorem contains_no_zero_div_exists :
    ¬ ∃ (points : List (ℚ × ℚ)) (p : ℚ × ℚ) (i : ℕ),
        i < points.length ∧
        (points.getD i 0).1 = (points.getD ((i + 1) % points.length) 0).1 ∧
        contains_hits_zero_div points p = true := by
  rintro ⟨points, p, i, -, -, hhit⟩
  rw [contains_hits_zero_div_eq_false points p] at hhit
  exact Bool.false_ne_true hhit

/-- C9 (amended): `Polygon.contains` never evaluates its division with a
zero denominator. The division is the right conjunct of a short-circuit
`and` whose left conjunct demands `points[i].x < x <= points[j].x` or the
reverse, which is unsatisfiable when `points[i].x = points[j].x`; so the
latent-looking division by `(points[j].x - points[i].x)` cannot raise
ZeroDivisionError for any vertex list or query point. -/
theorem contains_never_divides_by_zero (points : List (ℚ × ℚ))
    (p : ℚ × ℚ) : contains_hits_zero_div points p = false :=
  contains_hits_zero_div_eq_false points p

/-! ### Asteroid._set_random_points (shapes.py lines 297-306)

```
points = random.randint(ASTEROID_MIN_POINTS, ASTEROID_MAX_POINTS)
radius_deviation = average_radius / 4
for i in range(0, 360, 360 / points):
    radius = random.randint(average_radius - radius_deviation,
                            average_radius + radius_deviation)
    radians = math.radians(i)
    self.shape.append(Point(math.cos(radians) * radius,
                            math.sin(radians) * radius))
```

This is Python 2: `360 / points` is integer division, so the loop step is
`360 div N` and the loop runs `ceil(360 / (360 div N))` times — not
always N times. The random draws are parameters: `N` is the point count
drawn from [6, 12] and `radius_draw k` the integer radius drawn by
`random.randint` at loop iteration `k` (its contract keeps it within the
two bounds). Vertices live in `ℝ` because of cos/sin. -/

/-- Python 2 `range(0, stop, step)` for a positive step: `0, step,
2*step, ...` while below `stop`; `ceil(stop / step)` elements. (A zero
step raises ValueError in Python; here the ℕ-division convention makes
the list empty, and every use has step ≥ 30.) -/
def py_range (stop step : ℕ) : List ℕ :=
  List.range' 0 ((stop + step - 1) / step) step

theorem py_range_length (stop step : ℕ) :
    (py_range stop step).length = (stop + step - 1) / step := by
  rw [py_range, List.length_range']

theorem py_range_getElem (stop step k : ℕ)
    (hk : k < (py_range stop step).length) :
    (py_range stop step)[k] = step * k := by
  have hk' : k < (List.range' 0 ((stop + step - 1) / step) step).length := hk
  have heq : (py_range stop step)[k] =
      (List.range' 0 ((stop + step - 1) / step) step)[k] := rfl
  rw [heq, List.getElem_range']
  exact Nat.zero_add _

/-- The outline built by `_set_random_points` with point count `points`
and per-iteration radius draws `radius_draw`. (Real cos/sin make this
the one noncomputable definition of the development.) -/
noncomputable def Asteroid.set_random_points (average_radius : ℚ)
    (points : ℕ) (radius_draw : ℕ → ℤ) : List (ℝ × ℝ) :=
  (py_range 360 (360 / points)).enum.map fun ka =>
    (Real.cos ((ka.2 : ℝ) * Real.pi / 180) * (radius_draw ka.1 : ℝ),
     Real.sin ((ka.2 : ℝ) * Real.pi / 180) * (radius_draw ka.1 : ℝ))

/-- C10 counterexample: with point count N = 7 (drawn from [6, 12]) the
generated outline has 8 vertices, not 7: the Python 2 step `360 / 7 = 51`
makes `range(0, 360, 51)` enumerate 8 angles (0, 51, ..., 357). -/
theorem set_random_points_seven_gives_eight :
    (6 ≤ 7 ∧ 7 ≤ 12) ∧
      (Asteroid.set_random_points 40 7 fun _ => 40).length = 8 ∧
      (8 : ℕ) ≠ 7 := by
  refine ⟨by norm_num, ?_, by norm_num⟩
  rw [Asteroid.set_random_points, List.length_map, List.enum_length,
    py_range_length 360 51]

/-- C10 (amended): for a point count N in [6, 12] and radius draws
within `average_radius ± average_radius/4` (the `randint` contract, i.e.
within ±25% of a nonnegative average radius), the outline has
`ceil(360 / (360 div N))` vertices — that is N for N in {6, 8, 9, 10,
12} but 8 for N = 7 and 12 for N = 11 — and vertex k sits at angle
`k * (360 div N)` degrees (integer division, not the claim's exact
`k * 360/N`), at distance from the origin equal to its radius draw,
whose square is within the squared ±25% band. -/
theorem set_random_points_spec (avg : ℚ) (N : ℕ) (radius_draw : ℕ → ℤ)
    (h6 : ASTEROID_MIN_POINTS ≤ N) (h12 : N ≤ ASTEROID_MAX_POINTS)
    (hr : ∀ k, avg - avg / 4 ≤ (radius_draw k : ℚ) ∧
      (radius_draw k : ℚ) ≤ avg + avg / 4)
    (havg : 0 ≤ avg) :
    (Asteroid.set_random_points avg N radius_draw).length =
        (if N = 7 then 8 else if N = 11 then 12 else N) ∧
      ∀ k, (hk : k < (Asteroid.set_random_points avg N radius_draw).length) →
        (Asteroid.set_random_points avg N radius_draw)[k] =
          (Real.cos (((360 / N) * k : ℕ) * Real.pi / 180) *
              (radius_draw k : ℝ),
           Real.sin (((360 / N) * k : ℕ) * Real.pi / 180) *
              (radius_draw k : ℝ)) ∧
        (((avg - avg / 4 : ℚ) : ℝ) ^ 2 ≤
            ((Asteroid.set_random_points avg N radius_draw)[k]).1 ^ 2 +
              ((Asteroid.set_random_points avg N radius_draw)[k]).2 ^ 2 ∧
          ((Asteroid.set_random_points avg N radius_draw)[k]).1 ^ 2 +
              ((Asteroid.set_random_points avg N radius_draw)[k]).2 ^ 2 ≤
            ((avg + avg / 4 : ℚ) : ℝ) ^ 2) := by
  constructor
  · rw [Asteroid.set_random_points, List.length_map, List.enum_length,
      py_range_length]
    rw [ASTEROID_MIN_POINTS] at h6
    rw [ASTEROID_MAX_POINTS] at h12
    interval_cases N <;> norm_num
  · intro k hk
    have hk' : k < (py_range 360 (360 / N)).length := by
      simpa [Asteroid.set_random_points] using hk
    have hval : (Asteroid.set_random_points avg N radius_draw)[k] =
        (Real.cos ((((360 / N) * k : ℕ) : ℝ) * Real.pi / 180) *
            (radius_draw k : ℝ),
         Real.sin ((((360 / N) * k : ℕ) : ℝ) * Real.pi / 180) *
            (radius_draw k : ℝ)) := by
      unfold Asteroid.set_random_points
      rw [List.getElem_map, List.getElem_enum,
        py_range_getElem 360 _ k hk']
    refine ⟨hval, ?_, ?_⟩ <;> rw [hval] <;> dsimp only <;>
      obtain ⟨hlo, hhi⟩ := hr k
    · have hlo' : ((avg - avg / 4 : ℚ) : ℝ) ≤ (radius_draw k : ℝ) := by
        exact_mod_cast hlo
      have h0 : (0 : ℝ) ≤ ((avg - avg / 4 : ℚ) : ℝ) := by
        have : (0 : ℚ) ≤ avg - avg / 4 := by linarith
        exact_mod_cast this
      have hsq : ((avg - avg / 4 : ℚ) : ℝ) ^ 2 ≤ (radius_draw k : ℝ) ^ 2 :=
        pow_le_pow_left₀ h0 hlo' 2
      nlinarith [Real.sin_sq_add_cos_sq
        ((((360 / N) * k : ℕ) : ℝ) * Real.pi / 180)]
    · have hhi' : (radius_draw k : ℝ) ≤ ((avg + avg / 4 : ℚ) : ℝ) := by
        exact_mod_cast hhi
      have h0 : (0 : ℝ) ≤ (radius_draw k : ℝ) := by
        have : (0 : ℚ) ≤ (radius_draw k : ℚ) := by linarith
        exact_mod_cast this
      have hsq : (radius_draw k : ℝ) ^ 2 ≤ ((avg + avg / 4 : ℚ) : ℝ) ^ 2 :=
        pow_le_pow_left₀ h0 hhi' 2
      nlinarith [Real.sin_sq_add_cos_sq
        ((((360 / N) * k : ℕ) : ℝ) * Real.pi / 180)]

/-- Witness for `set_random_points_spec`: average radius 40, point count
7, every radius draw equal to 40. -/
theorem set_random_points_spec_witness :
    (ASTEROID_MIN_POINTS ≤ 7 ∧ 7 ≤ ASTEROID_MAX_POINTS ∧
      (∀ k : ℕ, (40 : ℚ) - 40 / 4 ≤ ((40 : ℤ) : ℚ) ∧
        ((40 : ℤ) : ℚ) ≤ 40 + 40 / 4) ∧ (0 : ℚ) ≤ 40) ∧
      ((Asteroid.set_random_points 40 7 fun _ => (40 : ℤ)).length =
          (if 7 = 7 then 8 else if 7 = 11 then 12 else 7) ∧
        ∀ k, (hk : k < (Asteroid.set_random_points 40 7
            fun _ => (40 : ℤ)).length) →
          (Asteroid.set_random_points 40 7 fun _ => (40 : ℤ))[k] =
            (Real.cos (((360 / 7) * k : ℕ) * Real.pi / 180) *
                (((40 : ℤ)) : ℝ),
             Real.sin (((360 / 7) * k : ℕ) * Real.pi / 180) *
                (((40 : ℤ)) : ℝ)) ∧
          ((((40 : ℚ) - 40 / 4 : ℚ) : ℝ) ^ 2 ≤
              ((Asteroid.set_random_points 40 7 fun _ => (40 : ℤ))[k]).1 ^ 2 +
                ((Asteroid.set_random_points 40 7
                  fun _ => (40 : ℤ))[k]).2 ^ 2 ∧
            ((Asteroid.set_random_points 40 7 fun _ => (40 : ℤ))[k]).1 ^ 2 +
                ((Asteroid.set_random_points 40 7
                  fun _ => (40 : ℤ))[k]).2 ^ 2 ≤
              (((40 : ℚ) + 40 / 4 : ℚ) : ℝ) ^ 2)) :=
  ⟨⟨by norm_num [ASTEROID_MIN_POINTS], by norm_num [ASTEROID_MAX_POINTS],
      fun _ => by norm_num, by norm_num⟩,
    set_random_points_spec 40 7 (fun _ => (40 : ℤ))
      (by norm_num [ASTEROID_MIN_POINTS]) (by norm_num [ASTEROID_MAX_POINTS])
      (fun _ => by norm_num) (by norm_num)⟩

end Asteroids
